import Mathlib

set_option linter.unusedVariables false

/-!
# modm `SoftwareI2cMaster`: a shallow embedding

Embedding of `src/modm/platform/i2c/generic/software_i2c_master.hpp`.

The class keeps all of its state in static members (`delayTime`,
`nextOperation`, `transactionObject`, `errorState`, `configuration`,
`starting`, `writing`, `reading`) and drives two open-drain pins `SCL` and
`SDA`.  The static members and the two pin outputs become the fields of one
record `State`, and every member function becomes a function on that record.

Functions whose bodies are in the header (`initialize`, `getErrorState`,
`delay2`, `delay4`) are translated from the header.  Functions that the header
only declares (their bodies are in `i2c_master_impl.hpp`) are modelled from the
specification; each of them says so in its doc comment.
-/

namespace modm

/-! ## Data model -/

/-- Modelled from the spec: the enumeration `modm::I2cMaster::Error` is declared
in `modm/architecture/interface/i2c_master.hpp`, which is outside the embedded header.  The labels are the ones of the specification's error
taxonomy. -/
inductive Error where
  | NoError
  | BusCondition
  | ArbitrationLost
  | DataNack
  | AddressNack
  | ClockStretchTooLong
  deriving DecidableEq, Repr

/-- Modelled from the spec: the enumeration `modm::I2c::Operation` (the type of
the next-operation cursor) is declared in the I2C interface header, which is
outside the embedded header.  The labels are the phases the specification
names: about to write, about to read, repeated start, done. -/
inductive Operation where
  | Stop
  | Restart
  | Write
  | Read
  deriving DecidableEq, Repr

/-- Modelled from the spec: one addressed phase of a transaction object, as the
transaction capability contract describes it: the bytes that remain to be
written, and one acknowledge policy (`true` is ACK) for every byte that remains
to be read. -/
structure Phase where
  toWrite : List Nat
  toRead : List Bool
  deriving DecidableEq, Repr

/-- Modelled from the spec: the class `modm::I2cTransaction` is declared in the
I2C interface header, which is outside the embedded header.  A transaction
is the list of its phases; after every phase but the last the transaction
object asks for a repeated start, after the last one for a stop. -/
abbrev I2cTransaction := List Phase

/-- Properties of the compilation target that the header leaves to its
environment: `intBits` is the width of `int` (it decides the integral promotion
of the `uint16_t` operand in `delayTime*2`), `nsBits` is the width of the
unsigned parameter of `modm::delayNanoseconds`, declared in
`modm/architecture/driver/delay.hpp`, and `stretchBudget` is the number of
polls of the clock line granted to a clock stretching slave. -/
structure Platform where
  intBits : Nat
  nsBits : Nat
  stretchBudget : Nat
  deriving DecidableEq, Repr

/-- The static members of `SoftwareI2cMaster<SCL, SDA>` (header lines 137-146)
and the bus the two pin classes give access to.

* `delayTime` is the `uint16_t` delay unit;
* `nextOperation`, `transactionObject` (`none` is the null pointer),
  `errorState` and `configuration` (`none` is the null handler, `some h` the
  handler with identity `h`) are the controller's bookkeeping;
* `starting`, `writing`, `reading` are the three phase descriptors, whose types
  are declared elsewhere and are therefore parameters;
* `scl` and `sda` are the outputs of the two open-drain pins, `true` after
  `set()` (released) and `false` after `reset()` (driven low);
* `sclEnv` and `sdaEnv` are what the other parties on the bus do to the two
  lines, one entry for every future `read()` of the pin (`true` is released; an
  exhausted list means nobody else touches the line);
* `received` collects the bytes handed to the transaction object. -/
structure State (S W R : Type) where
  delayTime : Nat
  nextOperation : Operation
  transactionObject : Option I2cTransaction
  errorState : Error
  configuration : Option Nat
  starting : S
  writing : W
  reading : R
  scl : Bool
  sda : Bool
  sclEnv : List Bool
  sdaEnv : List Bool
  received : List Nat
  deriving DecidableEq, Repr

variable {S W R : Type}

/-! ## Functions defined in the header -/

/-- The value `initialize` leaves in `delayTime` (header lines 52-53):
`delayTime = uint32_t(250000000) / baudrate;` narrows the 32-bit quotient to
the 16-bit `delayTime`, and `if (delayTime == 0) delayTime = 1;` then tests the
narrowed value. -/
def initializeDelay (baudrate : Nat) : Nat :=
  let delayTime := (250000000 / baudrate) % 65536
  if delayTime = 0 then 1 else delayTime

/-- `SoftwareI2cMaster::initialize<SystemClock, baudrate, tolerance>()` (header
lines 46-57).  `baudrate` is a `uint32_t` template argument; the division is
undefined for `baudrate = 0`, which is reported as `none`, as is a value that
is no `uint32_t`. -/
def initializeMaster (systemClock baudrate tolerance : Nat) (s : State S W R) :
    Option (State S W R) :=
  if baudrate = 0 ∨ 4294967296 ≤ baudrate then none
  else some { s with delayTime := initializeDelay baudrate, scl := true, sda := true }

/-- `SoftwareI2cMaster::getErrorState()` (header lines 64-66): the returned
value together with the state after the call. -/
def getErrorState (s : State S W R) : Error × State S W R :=
  (s.errorState, s)

/-- The nanosecond count `delay4()` hands to `modm::delayNanoseconds` (header
lines 125-127): `delayTime` converted to the parameter type. -/
def delay4 (p : Platform) (s : State S W R) : Nat :=
  s.delayTime % 2 ^ p.nsBits

/-- `SCL::read()`: an open-drain line reads high only when every party has
released it, so the level is the master's own output and what the other
parties do at this read. -/
def readScl (s : State S W R) : Bool × State S W R :=
  match s.sclEnv with
  | [] => (s.scl, s)
  | e :: rest => (s.scl && e, { s with sclEnv := rest })

/-- `SDA::read()`, as `readScl`. -/
def readSda (s : State S W R) : Bool × State S W R :=
  match s.sdaEnv with
  | [] => (s.sda, s)
  | e :: rest => (s.sda && e, { s with sdaEnv := rest })

/-! ## Functions the header only declares

The busy-waits `delay2()` and `delay4()` between the pin operations change no
state and are left out of the functions below. -/

/-- Modelled from the spec: the body of `error(Error)` is in
`i2c_master_impl.hpp`, which is outside the embedded header.  It releases
both lines, records the error code and clears the transaction reference (the
header documents it the same way, lines 74-76). -/
def error (code : Error) (s : State S W R) : State S W R :=
  { s with scl := true, sda := true, errorState := code, transactionObject := none }

/-- Modelled from the spec: the polling loop of `sclSetAndWait()`, whose body is
outside the embedded header: the clock is polled until it reads high, at
most `budget` times. -/
def waitForScl : Nat → State S W R → Bool × State S W R
  | 0, s => (false, s)
  | budget + 1, s =>
    let r := readScl s
    if r.1 then (true, r.2) else waitForScl budget r.2

/-- Modelled from the spec: the body of `sclSetAndWait()` is outside the embedded header.  It releases the clock line and polls it until it reads high,
within a bounded polling budget; `false` signals that the budget was exceeded
and records `ClockStretchTooLong`. -/
def sclSetAndWait (p : Platform) (s : State S W R) : Bool × State S W R :=
  let r := waitForScl p.stretchBudget { s with scl := true }
  if r.1 then r else (false, { r.2 with errorState := Error.ClockStretchTooLong })

/-- Modelled from the spec: the body of `startCondition()` is outside the embedded header.  Both lines have to be observed released beforehand; then data
is pulled low while the clock is still released, then the clock is pulled low.
It fails when, before asserting, either line is found low. -/
def startCondition (p : Platform) (s : State S W R) : Bool × State S W R :=
  let d := readSda { s with sda := true }
  if !d.1 then (false, d.2)
  else
    let c := sclSetAndWait p d.2
    if !c.1 then (false, c.2)
    else (true, { c.2 with sda := false, scl := false })

/-- Modelled from the spec: the body of `stopCondition()` is outside the embedded header.  Data is released while the clock is held low, the clock is
released and waited for, data is released, and the bus is expected to be back
at idle high on both lines; it fails when a line is found low. -/
def stopCondition (p : Platform) (s : State S W R) : Bool × State S W R :=
  let c := sclSetAndWait p { s with scl := false, sda := true }
  if !c.1 then (false, c.2)
  else
    let d := readSda { c.2 with sda := true }
    (d.1, d.2)

/-- Modelled from the spec: the body of `writeBit(bool)` is outside the embedded header.  Data is driven to the bit value while the clock is low, the
clock is released and waited for (a failure is propagated), and the data line
is read back while the clock is high: arbitration is lost when the observed
level differs from the intended bit and is not high.  The clock is pulled low
again for the next bit. -/
def writeBit (p : Platform) (bit : Bool) (s : State S W R) : Bool × State S W R :=
  let c := sclSetAndWait p { s with sda := bit }
  if !c.1 then (false, c.2)
  else
    let d := readSda c.2
    if d.1 != bit && d.1 != true then
      (false, { d.2 with errorState := Error.ArbitrationLost })
    else (true, { d.2 with scl := false })

/-- Modelled from the spec: the body of `readBit(uint8_t&)` is outside the embedded header.  Data is released, the clock is released and waited for, the
data line is sampled while the clock is high, and the clock is pulled low
again.  It fails only on a clock stretch timeout.  The result is the success
flag, the sampled level and the state. -/
def readBit (p : Platform) (s : State S W R) : Bool × Bool × State S W R :=
  let c := sclSetAndWait p { s with sda := true }
  if !c.1 then (false, false, c.2)
  else
    let d := readSda c.2
    (true, d.1, { d.2 with scl := false })

/-- Modelled from the spec: the shift loop of `write(uint8_t)`: the lowest
`n` bits of `data` are written with `writeBit`, the most significant of them
first, and the first failing bit aborts the loop. -/
def writeBits (p : Platform) (data : Nat) : Nat → State S W R → Bool × State S W R
  | 0, s => (true, s)
  | n + 1, s =>
    let r := writeBit p (data.testBit n) s
    if r.1 then writeBits p data n r.2 else (false, r.2)

/-- Modelled from the spec: the body of `write(uint8_t)` is in
`i2c_master_impl.hpp`, which is outside the embedded header.  The eight bits
are shifted out most significant bit first with `writeBit`, the first bit
failure aborts without sending the remaining bits, and after all eight bits one
more `readBit` captures the acknowledge bit.  Overall success is returned only
if all bit transfers succeeded; the acknowledge value is reported to the caller
and is not treated as a transfer failure.  The result is the success flag, the
acknowledge value (`true` is ACK, the low level of standard I2C framing) and
the state. -/
def write (p : Platform) (data : Nat) (s : State S W R) : Bool × Bool × State S W R :=
  let w := writeBits p data 8 s
  if !w.1 then (false, false, w.2)
  else
    let a := readBit p w.2
    if !a.1 then (false, false, a.2.2)
    else (true, !a.2.1, a.2.2)

/-- Modelled from the spec: the shift loop of `read(uint8_t&, bool)`: `n` bits
are shifted into `acc` with `readBit`, the first one read becoming the most
significant, and the first clock stretch timeout aborts the loop. -/
def readBits (p : Platform) : Nat → Nat → State S W R → Bool × Nat × State S W R
  | 0, acc, s => (true, acc, s)
  | n + 1, acc, s =>
    let r := readBit p s
    if r.1 then readBits p n (2 * acc + (if r.2.1 then 1 else 0)) r.2.2
    else (false, acc, r.2.2)

/-- Modelled from the spec: the body of `read(uint8_t&, bool)` is outside the embedded header.  Eight bits are shifted in with `readBit`, the first
timeout aborts, and the acknowledge bit the caller supplies is written back to
the slave (`ack = true` is ACK, the low level).  The result is the success
flag, the accumulated byte and the state. -/
def read (p : Platform) (ack : Bool) (s : State S W R) : Bool × Nat × State S W R :=
  let r := readBits p 8 0 s
  if !r.1 then (false, r.2.1, r.2.2)
  else
    let a := writeBit p (!ack) r.2.2
    (a.1, r.2.1, a.2)

/-- Modelled from the spec: the write loop of `start`: `write` is called for as
long as the transaction object reports bytes to write, and the first failed
write aborts.  A byte the slave declined to acknowledge is no bus fault, but it
terminates the transaction as unsuccessful, with `DataNack` as the cause. -/
def writeBytes (p : Platform) : List Nat → State S W R → Bool × State S W R
  | [], s => (true, s)
  | b :: bs, s =>
    let r := write p b s
    if !r.1 then (false, r.2.2)
    else if !r.2.1 then (false, { r.2.2 with errorState := Error.DataNack })
    else writeBytes p bs r.2.2

/-- Modelled from the spec: the read loop of `start`: `read` is called for as
long as the transaction object reports bytes to read, with the acknowledge the
transaction object dictates, and the first failed read aborts. -/
def readBytes (p : Platform) : List Bool → State S W R → Bool × State S W R
  | [], s => (true, s)
  | ack :: acks, s =>
    let r := read p ack s
    if r.1 then readBytes p acks { r.2.2 with received := r.2.2.received ++ [r.2.1] }
    else (false, r.2.2)

/-- Modelled from the spec: the sequence `start` drives after a start
condition: the write phase, then the read phase, and on the transaction
object's request a repeated start condition and the next phase.  A failed
repeated start records `BusCondition`. -/
def runPhases (p : Platform) : List Phase → State S W R → Bool × State S W R
  | [], s => (true, s)
  | ph :: rest, s =>
    let w := writeBytes p ph.toWrite { s with nextOperation := Operation.Write }
    if !w.1 then (false, w.2)
    else
      let r := readBytes p ph.toRead { w.2 with nextOperation := Operation.Read }
      if !r.1 then (false, r.2)
      else
        match rest with
        | [] => (true, r.2)
        | next :: more =>
          let c := startCondition p { r.2 with nextOperation := Operation.Restart }
          if !c.1 then (false, { c.2 with errorState := Error.BusCondition })
          else runPhases p (next :: more) c.2

/-- Modelled from the spec: the body of `start(I2cTransaction*,
ConfigurationHandler)` is in `i2c_master_impl.hpp`, which is outside the embedded header.  A call while a transaction reference is set is rejected.
Otherwise the transaction and handler references are stored, the cursor is
reset, and a start condition is generated; its failure ends in `error` with
`BusCondition`.  After a successful start condition the error state is
`NoError` and the phases are driven; an abort makes a best-effort stop attempt
and ends in `error` with the recorded cause; normal completion issues the stop
condition and returns to idle. -/
def start (p : Platform) (transaction : I2cTransaction) (handler : Option Nat)
    (s : State S W R) : Bool × State S W R :=
  if s.transactionObject.isSome then (false, s)
  else
    let s0 := { s with transactionObject := some transaction, configuration := handler,
                       nextOperation := Operation.Restart }
    let c := startCondition p s0
    if !c.1 then (false, error Error.BusCondition c.2)
    else
      let r := runPhases p transaction { c.2 with errorState := Error.NoError }
      if !r.1 then
        let e := stopCondition p r.2
        (false, error r.2.errorState e.2)
      else
        let e := stopCondition p { r.2 with nextOperation := Operation.Stop }
        if !e.1 then (false, error Error.BusCondition e.2)
        else (true, { e.2 with transactionObject := none })

/-- Modelled from the spec: the body of `reset()` is in `i2c_master_impl.hpp`,
which is outside the embedded header.  It forces the bus back to the
released electrical state and clears the error state and the transaction
reference, whatever the current state. -/
def reset (s : State S W R) : State S W R :=
  { s with scl := true, sda := true, errorState := Error.NoError, transactionObject := none }

/-- An idle controller on a bus nobody else touches, used for concrete
evaluations: both lines released, no transaction, no error, delay unit `d`. -/
def idle (d : Nat) : State Unit Unit Unit :=
  { delayTime := d, nextOperation := Operation.Stop, transactionObject := none,
    errorState := Error.NoError, configuration := none,
    starting := (), writing := (), reading := (),
    scl := true, sda := true, sclEnv := [], sdaEnv := [], received := [] }

/-! ## The delay unit computed by `initialize` -/

theorem initializeDelay_pos (baudrate : Nat) : 1 ≤ initializeDelay baudrate := by
  unfold initializeDelay
  by_cases h : 250000000 / baudrate % 65536 = 0
  · simp [h]
  · simp only [h, if_false]
    omega

theorem initializeDelay_le (baudrate : Nat) : initializeDelay baudrate ≤ 65535 := by
  unfold initializeDelay
  by_cases h : 250000000 / baudrate % 65536 = 0
  · simp [h]
  · simp only [h, if_false]
    omega

theorem initializeDelay_exact (baudrate : Nat) (hlo : 3815 ≤ baudrate)
    (hhi : baudrate ≤ 250000000) :
    initializeDelay baudrate = 250000000 / baudrate ∧ 250000000 / baudrate ≤ 65535 := by
  have hle : 250000000 / baudrate ≤ 250000000 / 3815 := Nat.div_le_div_left hlo (by decide)
  have hq : 250000000 / 3815 = 65530 := by norm_num
  have hpos : 0 < 250000000 / baudrate := Nat.div_pos hhi (by omega)
  have hmod : 250000000 / baudrate % 65536 = 250000000 / baudrate :=
    Nat.mod_eq_of_lt (by omega)
  refine ⟨?_, by omega⟩
  unfold initializeDelay
  simp only [hmod]
  rw [if_neg (by omega)]

theorem initializeMaster_eq (systemClock baudrate tolerance : Nat) (s : State S W R)
    (h1 : 1 ≤ baudrate) (h32 : baudrate < 4294967296) :
    initializeMaster systemClock baudrate tolerance s =
      some { s with delayTime := initializeDelay baudrate, scl := true, sda := true } := by
  unfold initializeMaster
  rw [if_neg (by omega)]

/-- C1. Floor invariant of `initialize`: for every requested baudrate from 1 up
to the largest 32-bit value, `initialize` returns, and the delay unit it
stores in the 16-bit `delayTime` is at least 1 (and a 16-bit value); the zero
check acts on the quotient `250000000 / baudrate` after it was narrowed to 16
bits. -/
theorem initialize_delay_never_zero (systemClock baudrate tolerance : Nat)
    (s : State S W R) (h1 : 1 ≤ baudrate) (h32 : baudrate < 4294967296) :
    ∃ s', initializeMaster systemClock baudrate tolerance s = some s' ∧
      s'.delayTime ≠ 0 ∧ 1 ≤ s'.delayTime ∧ s'.delayTime ≤ 65535 := by
  refine ⟨_, initializeMaster_eq systemClock baudrate tolerance s h1 h32, ?_, ?_, ?_⟩
  · have := initializeDelay_pos baudrate
    show initializeDelay baudrate ≠ 0
    omega
  · exact initializeDelay_pos baudrate
  · exact initializeDelay_le baudrate

theorem initialize_delay_never_zero_witness :
    1 ≤ 1 ∧ 1 < 4294967296 ∧
    ∃ s', initializeMaster 8000000 1 5 (idle 0) = some s' ∧
      s'.delayTime ≠ 0 ∧ 1 ≤ s'.delayTime ∧ s'.delayTime ≤ 65535 :=
  ⟨by decide, by decide,
    initialize_delay_never_zero 8000000 1 5 (idle 0) (by decide) (by decide)⟩

/-- C2. At the baudrates 1000 and 3814 the delay unit `initialize` stores is
not the clamped quotient `max 1 (250000000 / baudrate)`: the quotients 250000
and 65547 do not fit the 16-bit `delayTime` and are stored as 53392 and 11. -/
theorem initialize_delay_truncated :
    (initializeMaster 8000000 1000 5 (idle 0)).map (fun s => s.delayTime) = some 53392 ∧
    max 1 (250000000 / 1000) = 250000 ∧
    (initializeMaster 8000000 3814 5 (idle 0)).map (fun s => s.delayTime) = some 11 ∧
    max 1 (250000000 / 3814) = 65547 := by
  refine ⟨?_, by norm_num, ?_, by norm_num⟩
  · rw [initializeMaster_eq _ _ _ _ (by decide) (by decide)]
    simp [initializeDelay]
  · rw [initializeMaster_eq _ _ _ _ (by decide) (by decide)]
    simp [initializeDelay]

/-- C3. After `initialize` with baudrate 1000000 the quarter period `delay4`
requests is 250 ns, so the bit period of four quarter periods is 1000 ns, below
the 4000 ns of 250 kbit/s, and the quarter period is shorter than the 1000 ns
that baudrate 250000 gives: the floor of one unit does not cap the rate at
250 kbit/s. -/
theorem initialize_no_ceiling_at_250k :
    (initializeMaster 8000000 1000000 5 (idle 0)).map (fun s => 4 * delay4 ⟨32, 32, 0⟩ s)
      = some 1000 ∧
    (initializeMaster 8000000 1000000 5 (idle 0)).map (delay4 ⟨32, 32, 0⟩) = some 250 ∧
    (initializeMaster 8000000 250000 5 (idle 0)).map (delay4 ⟨32, 32, 0⟩) = some 1000 ∧
    (initializeMaster 8000000 250000 5 (idle 0)).map (fun s => 4 * delay4 ⟨32, 32, 0⟩ s)
      = some 4000 := by
  refine ⟨?_, ?_, ?_, ?_⟩ <;>
  · rw [initializeMaster_eq _ _ _ _ (by decide) (by decide)]
    simp [initializeDelay, delay4]

/-! ## The controller's entry points -/

/-- C4. `getErrorState` is a pure read: it returns the recorded error state,
leaves the whole state (error state, delay unit, transaction reference, cursor,
configuration handler, pin outputs and everything else) as it was, and a
second call returns the same value. -/
theorem getErrorState_pure_read (s : State S W R) :
    (getErrorState s).1 = s.errorState ∧
    (getErrorState s).2 = s ∧
    (getErrorState (getErrorState s).2).1 = (getErrorState s).1 :=
  ⟨rfl, rfl, rfl⟩

/-- C5. Non-reentrant `start`: in every state whose transaction reference is
set, `start` returns `false` and the state after the call is the state before
it; in particular the clock and data outputs, the error state and the stored
transaction reference are unchanged. -/
theorem start_rejected_while_active (p : Platform) (transaction : I2cTransaction)
    (handler : Option Nat) (s : State S W R) (hactive : s.transactionObject ≠ none) :
    (start p transaction handler s).1 = false ∧
    (start p transaction handler s).2.scl = s.scl ∧
    (start p transaction handler s).2.sda = s.sda ∧
    (start p transaction handler s).2.errorState = s.errorState ∧
    (start p transaction handler s).2.transactionObject = s.transactionObject ∧
    (start p transaction handler s).2 = s := by
  have hsome : s.transactionObject.isSome = true := by
    cases h : s.transactionObject with
    | none => exact absurd h hactive
    | some t => rfl
  have hstart : start p transaction handler s = (false, s) := by
    unfold start
    rw [if_pos hsome]
  rw [hstart]
  exact ⟨rfl, rfl, rfl, rfl, rfl, rfl⟩

theorem start_rejected_while_active_witness :
    ({ idle 2500 with transactionObject := some [⟨[0xA5], []⟩],
                      errorState := Error.DataNack, scl := false } :
        State Unit Unit Unit).transactionObject ≠ none ∧
    (start ⟨32, 32, 100⟩ [⟨[0x3C], [false]⟩] (some 7)
      { idle 2500 with transactionObject := some [⟨[0xA5], []⟩],
                       errorState := Error.DataNack, scl := false }).1 = false :=
  ⟨by simp,
    (start_rejected_while_active ⟨32, 32, 100⟩ [⟨[0x3C], [false]⟩] (some 7)
      { idle 2500 with transactionObject := some [⟨[0xA5], []⟩],
                       errorState := Error.DataNack, scl := false } (by simp)).1⟩

/-- C6. `reset` clears and is idempotent: after `reset` the error state is
`NoError`, the transaction reference is detached and both lines are released,
whatever the state before; a second `reset` changes nothing more. -/
theorem reset_clears_and_idempotent (s : State S W R) :
    (reset s).errorState = Error.NoError ∧
    (reset s).transactionObject = none ∧
    (reset s).scl = true ∧
    (reset s).sda = true ∧
    reset (reset s) = reset s :=
  ⟨rfl, rfl, rfl, rfl, rfl⟩

/-! ## Byte write and the acknowledge bit -/

/-- C7. Byte write success is independent of the acknowledge value: for every
byte and every bus behaviour in which all eight data bits and the following
acknowledge slot are transferred without arbitration loss or clock stretch
timeout, `write` returns success, whether the level sampled in the acknowledge
slot is low (ACK) or high (NACK); the acknowledge value is reported next to the
success flag. -/
theorem write_success_independent_of_ack (p : Platform) (data : Nat) (s : State S W R)
    (hbits : (writeBits p data 8 s).1 = true)
    (hslot : (readBit p (writeBits p data 8 s).2).1 = true) :
    (write p data s).1 = true ∧
    (write p data s).2.1 = !(readBit p (writeBits p data 8 s).2).2.1 := by
  unfold write
  simp [hbits, hslot]

theorem write_success_independent_of_ack_witness :
    ((writeBits ⟨32, 32, 1⟩ 0xA5 8 (idle 2500)).1 = true ∧
      (readBit ⟨32, 32, 1⟩ (writeBits ⟨32, 32, 1⟩ 0xA5 8 (idle 2500)).2).1 = true ∧
      (write ⟨32, 32, 1⟩ 0xA5 (idle 2500)).1 = true ∧
      (write ⟨32, 32, 1⟩ 0xA5 (idle 2500)).2.1 = false) ∧
    ((write ⟨32, 32, 1⟩ 0xA5
        { idle 2500 with sdaEnv := [true, true, true, true, true, true, true, true, false] }).1
        = true ∧
      (write ⟨32, 32, 1⟩ 0xA5
        { idle 2500 with sdaEnv := [true, true, true, true, true, true, true, true, false] }).2.1
        = true) :=
  ⟨⟨by decide, by decide,
      (write_success_independent_of_ack ⟨32, 32, 1⟩ 0xA5 (idle 2500)
        (by decide) (by decide)).1,
      by decide⟩,
    (write_success_independent_of_ack ⟨32, 32, 1⟩ 0xA5
        { idle 2500 with sdaEnv := [true, true, true, true, true, true, true, true, false] }
        (by decide) (by decide)).1,
    by decide⟩

/-! ## Timing primitives -/

/-- C9. Frame of `initialize`: for every prior state and every baudrate from 1
up to the largest 32-bit value, `initialize` returns a state that differs from
the prior one only in the delay unit and the two pin outputs, both of which are
released; error state, transaction reference, cursor and configuration handler
are unchanged, and another `SystemClock` or tolerance gives the same state. -/
theorem initialize_frame (systemClock tolerance systemClock' tolerance' baudrate : Nat)
    (s : State S W R) (h1 : 1 ≤ baudrate) (h32 : baudrate < 4294967296) :
    ∃ s', initializeMaster systemClock baudrate tolerance s = some s' ∧
      s' = { s with delayTime := s'.delayTime, scl := true, sda := true } ∧
      s'.scl = true ∧ s'.sda = true ∧
      s'.errorState = s.errorState ∧
      s'.transactionObject = s.transactionObject ∧
      s'.nextOperation = s.nextOperation ∧
      s'.configuration = s.configuration ∧
      initializeMaster systemClock' baudrate tolerance' s = some s' := by
  refine ⟨_, initializeMaster_eq systemClock baudrate tolerance s h1 h32,
    rfl, rfl, rfl, rfl, rfl, rfl, rfl, ?_⟩
  exact initializeMaster_eq systemClock' baudrate tolerance' s h1 h32

theorem initialize_frame_witness :
    1 ≤ 400000 ∧ 400000 < 4294967296 ∧
    ∃ s', initializeMaster 8000000 400000 5
        { idle 7 with errorState := Error.ArbitrationLost, scl := false } = some s' ∧
      s'.errorState = Error.ArbitrationLost ∧ s'.scl = true :=
  ⟨by decide, by decide,
    (initialize_frame 8000000 5 72000000 1 400000
      { idle 7 with errorState := Error.ArbitrationLost, scl := false }
      (by decide) (by decide)).imp
      (fun _ h => ⟨h.1, h.2.2.2.2.1, h.2.2.1⟩)⟩

/-- C10. Exact range of the delay computation: for every baudrate from 3815 to
250000000, `initialize` returns and the delay unit it stores is exactly
`250000000 / baudrate`, a value between 1 and 65535 that is neither truncated
nor clamped; the Standard rate 100000 gives 2500. -/
theorem initialize_delay_exact_range (systemClock baudrate tolerance : Nat)
    (s : State S W R) (hlo : 3815 ≤ baudrate) (hhi : baudrate ≤ 250000000) :
    (∃ s', initializeMaster systemClock baudrate tolerance s = some s' ∧
      s'.delayTime = 250000000 / baudrate ∧
      1 ≤ s'.delayTime ∧ s'.delayTime ≤ 65535) ∧
    (initializeMaster systemClock 100000 tolerance s).map (fun s' => s'.delayTime)
      = some 2500 := by
  have hex := initializeDelay_exact baudrate hlo hhi
  constructor
  · refine ⟨_, initializeMaster_eq systemClock baudrate tolerance s (by omega) (by omega),
      hex.1, ?_, ?_⟩
    · exact initializeDelay_pos baudrate
    · exact initializeDelay_le baudrate
  · rw [initializeMaster_eq _ _ _ _ (by decide) (by decide)]
    simp [initializeDelay]

theorem initialize_delay_exact_range_witness :
    3815 ≤ 3815 ∧ 3815 ≤ 250000000 ∧
    ∃ s', initializeMaster 8000000 3815 5 (idle 0) = some s' ∧
      s'.delayTime = 250000000 / 3815 ∧ 1 ≤ s'.delayTime ∧ s'.delayTime ≤ 65535 :=
  ⟨by decide, by decide,
    (initialize_delay_exact_range 8000000 3815 5 (idle 0) (by decide) (by decide)).1⟩

end modm
